import Mathlib

/-!
A shallow embedding of the MUSE App Preview MCP server (src/README.md,
embedded TypeScript source, v1.4.0; earlier iterations in src/src/index.ts
and src/unnamed/part_000 agree on the shared handlers).

Conventions of the embedding:
* The persisted store file `previews.json` is modelled as `Option PreviewStore`
  (`none` = the file does not exist).  `saveStore` returns the new file
  content; handlers thread the file value through and return the pair
  (structured JSON result, file after the call).
* Filesystem probes (`fs.existsSync` on caller-supplied paths) are an oracle
  `String → Bool`.  The screenshots directory and the pending-previews file
  are tracked explicitly in `FsState` for the handlers that touch them.
* JavaScript truthiness on optional string arguments (`if (args.title)`,
  `args.x || dflt`) is modelled by `truthy` / `orDefault`: `none` and
  `some ""` are both falsy, exactly as `undefined` and `""` are in JS.
* External side-effecting primitives (`xcrun simctl …`, `open -b …`,
  `screencapture`) are oracles collected in `CaptureEnv`; a rejected promise
  is an `Except.error` / `CapOutcome.throwErr`, and the file-existence check
  after a capture is the `fileCreated` flag of the outcome.
* `Array.prototype.sort` with comparator `(a, b) => b.priority - a.priority`
  is a stable sort by descending priority (ECMAScript guarantees sort
  stability); it is modelled by the stable insertion sort
  `sortByPriorityDesc`.
* Fresh ids (`generateId`), timestamps (`Date.now()`) and ISO dates
  (`new Date().toISOString()`) are modelled as explicit generator arguments.
-/

/-- Character-list prefix test (used to build the substring test). -/
def prefixCheck : List Char → List Char → Bool
  | [], _ => true
  | _ :: _, [] => false
  | c :: cs, d :: ds => c == d && prefixCheck cs ds

/-- Character-list substring test: does `needle` occur contiguously in the list? -/
def subCheck (needle : List Char) : List Char → Bool
  | [] => prefixCheck needle []
  | c :: t => prefixCheck needle (c :: t) || subCheck needle t

/-- JavaScript `hay.includes(needle)` (case-sensitive substring test). -/
def strIncludes (hay needle : String) : Bool :=
  subCheck needle.data hay.data

/-- JavaScript `s.toLowerCase()` restricted to the ASCII names this program
compares (device and runtime names). -/
def lowerStr (s : String) : String :=
  String.mk (s.data.map Char.toLower)

/-- JS truthiness of an optional string argument: `undefined` and `""` are falsy. -/
def truthy : Option String → Bool
  | none => false
  | some s => s ≠ ""

/-- JavaScript `arg || dflt` for optional string arguments. -/
def orDefault (o : Option String) (dflt : String) : String :=
  match o with
  | some s => if s = "" then dflt else s
  | none => dflt

/-- `name.replace(/[^a-zA-Z0-9]/g, "_")` from the screenshot-filename builders. -/
def safeName (s : String) : String :=
  String.mk (s.data.map fun c => if c.isAlphanum then c else '_')

/-- One persisted preview set (interface `PreviewSet`). -/
structure PreviewSet where
  id : String
  screenshotPath : String
  title : String
  subtitle : String
  deviceId : Option String
  paletteId : Option String
  createdAt : String
deriving DecidableEq, Repr

/-- The persisted settings object (interface `PreviewStore.settings`).
`language = ""` also stands for a store file written before the field
existed: both are falsy to the `!store.settings.language` check in
`loadStore`. -/
structure StoreSettings where
  defaultDeviceType : String
  defaultPaletteId : String
  outputDirectory : String
  language : String
deriving DecidableEq, Repr

/-- The root persisted aggregate (interface `PreviewStore`). -/
structure PreviewStore where
  previews : List PreviewSet
  settings : StoreSettings
deriving DecidableEq, Repr

/-- The factory-default settings built by `loadStore` when no store file
exists (`home` is `process.env.HOME`). -/
def defaultSettings (home : String) : StoreSettings :=
  { defaultDeviceType := "iphone_6_7"
    defaultPaletteId := "ocean"
    outputDirectory := home ++ "/Desktop/Previews"
    language := "ko" }

/-- The default-initialized store returned by `loadStore` on first-ever load. -/
def defaultStore (home : String) : PreviewStore :=
  { previews := [], settings := defaultSettings home }

/-- `loadStore()`: parse the persisted file if it exists, defaulting a
missing/empty `language` to `"ko"`; otherwise build the default store. -/
def loadStore (home : String) (file : Option PreviewStore) : PreviewStore :=
  match file with
  | some store =>
      if store.settings.language = "" then
        { store with settings := { store.settings with language := "ko" } }
      else store
  | none => defaultStore home

/-- `saveStore(store)`: write the full store back; the result is the new
content of the persisted file. -/
def saveStore (store : PreviewStore) : Option PreviewStore :=
  some store

/-- The structured JSON result every handler returns (fields not produced by
a given handler keep their defaults). -/
structure MCPResult where
  success : Bool
  error : Option String := none
  message : Option String := none
  hint : Option String := none
  previews : List PreviewSet := []
  totalPreviews : Option Nat := none
  count : Option Nat := none
  needsInput : Bool := false
deriving Repr

/-- Arguments of the `add_preview` tool. -/
structure AddPreviewArgs where
  screenshotPath : String
  title : String
  subtitle : String
  deviceId : Option String := none
  paletteId : Option String := none
deriving DecidableEq, Repr

/-- The `PreviewSet` record built by `handleAddPreview` (defaults resolved
from the current settings, fresh id and creation time supplied). -/
def addPreviewRecord (freshId now : String) (args : AddPreviewArgs)
    (s : StoreSettings) : PreviewSet :=
  { id := freshId
    screenshotPath := args.screenshotPath
    title := args.title
    subtitle := args.subtitle
    deviceId := some (orDefault args.deviceId s.defaultDeviceType)
    paletteId := some (orDefault args.paletteId s.defaultPaletteId)
    createdAt := now }

/-- `handleAddPreview`: validate the screenshot exists, then
load → append → save. -/
def handleAddPreview (fs : String → Bool) (home freshId now : String)
    (args : AddPreviewArgs) (file : Option PreviewStore) :
    MCPResult × Option PreviewStore :=
  if ¬ fs args.screenshotPath then
    ({ success := false
       error := some ("Screenshot not found: " ++ args.screenshotPath) }, file)
  else
    let store := loadStore home file
    let preview := addPreviewRecord freshId now args store.settings
    let store' := { store with previews := store.previews ++ [preview] }
    ({ success := true
       message := some "Preview added successfully"
       previews := [preview]
       totalPreviews := some store'.previews.length },
     saveStore store')

/-- `splice` of the first element whose id matches, as performed by
`handleRemovePreview` via `findIndex` + `splice(index, 1)`. -/
def removeFirstById (id : String) : List PreviewSet → List PreviewSet
  | [] => []
  | p :: rest => if p.id == id then rest else p :: removeFirstById id rest

/-- `handleRemovePreview`: not-found when no record carries the id, else
remove the first matching record and save. -/
def handleRemovePreview (home : String) (id : String)
    (file : Option PreviewStore) : MCPResult × Option PreviewStore :=
  let store := loadStore home file
  match store.previews.find? (fun p => p.id == id) with
  | none => ({ success := false, error := some ("Preview not found: " ++ id) }, file)
  | some _ =>
      let store' := { store with previews := removeFirstById id store.previews }
      ({ success := true
         message := some "Preview removed"
         totalPreviews := some store'.previews.length },
       saveStore store')

/-- Arguments of the `update_preview` tool. -/
structure UpdatePreviewArgs where
  id : String
  title : Option String := none
  subtitle : Option String := none
  screenshotPath : Option String := none
  deviceId : Option String := none
  paletteId : Option String := none
deriving DecidableEq, Repr

/-- `if (args.x) field = args.x` for a string-valued record/settings field. -/
def applyIfTruthy (o : Option String) (cur : String) : String :=
  match o with
  | some v => if v = "" then cur else v
  | none => cur

/-- `if (args.x) preview.x = args.x` for an optional-valued record field. -/
def applyIfTruthyOpt (o : Option String) (cur : Option String) : Option String :=
  match o with
  | some v => if v = "" then cur else some v
  | none => cur

/-- The field-by-field in-place mutation `handleUpdatePreview` performs on
the found record once the screenshot-path check has passed: each truthy
argument overwrites its field, falsy arguments leave the prior value (the
source's assignments touch independent fields, so the sequential `if`
chain equals this parallel update). -/
def updatedPreview (args : UpdatePreviewArgs) (p : PreviewSet) : PreviewSet :=
  { p with
    title := applyIfTruthy args.title p.title
    subtitle := applyIfTruthy args.subtitle p.subtitle
    screenshotPath := applyIfTruthy args.screenshotPath p.screenshotPath
    deviceId := applyIfTruthyOpt args.deviceId p.deviceId
    paletteId := applyIfTruthyOpt args.paletteId p.paletteId }

/-- In-place update of the first record whose id matches (`find` returns a
reference that the handler mutates; the record keeps its position). -/
def updateFirstById (id : String) (f : PreviewSet → PreviewSet) :
    List PreviewSet → List PreviewSet
  | [] => []
  | p :: rest => if p.id == id then f p :: rest else p :: updateFirstById id f rest

/-- The screenshot-path validation of `handleUpdatePreview`: a truthy new
path must exist, otherwise the handler returns early without saving. -/
def updateScreenshotOk (fs : String → Bool) (args : UpdatePreviewArgs) : Bool :=
  match args.screenshotPath with
  | some sp => if sp = "" then true else fs sp
  | none => true

/-- `handleUpdatePreview`: not-found when the id is absent; an early
not-found return (without saving) when a truthy new screenshot path does not
exist; otherwise apply the truthy fields to the record in place and save. -/
def handleUpdatePreview (fs : String → Bool) (home : String)
    (args : UpdatePreviewArgs) (file : Option PreviewStore) :
    MCPResult × Option PreviewStore :=
  let store := loadStore home file
  match store.previews.find? (fun p => p.id == args.id) with
  | none => ({ success := false, error := some ("Preview not found: " ++ args.id) }, file)
  | some _ =>
      if ¬ updateScreenshotOk fs args then
        ({ success := false
           error := some ("Screenshot not found: " ++ orDefault args.screenshotPath "") },
         file)
      else
        let store' :=
          { store with previews := updateFirstById args.id (updatedPreview args) store.previews }
        ({ success := true, message := some "Preview updated" }, saveStore store')

/-- Arguments of the `update_settings` tool. -/
structure UpdateSettingsArgs where
  defaultDeviceType : Option String := none
  defaultPaletteId : Option String := none
  outputDirectory : Option String := none
  language : Option String := none
deriving DecidableEq, Repr

/-- `handleUpdateSettings`: apply each truthy supplied field, leave the rest. -/
def handleUpdateSettings (home : String) (args : UpdateSettingsArgs)
    (file : Option PreviewStore) : MCPResult × Option PreviewStore :=
  let store := loadStore home file
  let s := store.settings
  let s' : StoreSettings :=
    { defaultDeviceType := applyIfTruthy args.defaultDeviceType s.defaultDeviceType
      defaultPaletteId := applyIfTruthy args.defaultPaletteId s.defaultPaletteId
      outputDirectory := applyIfTruthy args.outputDirectory s.outputDirectory
      language := applyIfTruthy args.language s.language }
  ({ success := true, message := some "Settings updated" },
   saveStore { store with settings := s' })

/-- `handleClearAll`: refuse without `confirm: true`, else empty the
previews collection and save (screenshot files are not touched). -/
def handleClearAll (home : String) (confirm : Bool)
    (file : Option PreviewStore) : MCPResult × Option PreviewStore :=
  if ¬ confirm then
    ({ success := false
       error := some "Please set confirm: true to clear all previews" }, file)
  else
    let store := loadStore home file
    ({ success := true
       message := some ("Cleared " ++ toString store.previews.length ++ " preview(s)") },
     saveStore { store with previews := [] })

/-- One device entry of the external `xcrun simctl list devices booted -j`
output (`{name, udid, state}`). -/
structure SimDevice where
  name : String
  udid : String
  state : String
deriving DecidableEq, Repr

/-- A discovered booted simulator as returned to callers
(`{name, udid, runtime}`). -/
structure SimInfo where
  name : String
  udid : String
  runtime : String
deriving DecidableEq, Repr

/-- A discovered booted simulator together with the selection `priority`
computed inside `getBootedSimulators` (stripped before returning). -/
structure SimTarget where
  name : String
  udid : String
  runtime : String
  priority : Nat
deriving DecidableEq, Repr

/-- The fixed ranking of `getBootedSimulators`:
iPhone Pro Max (4) > iPhone Pro (3) > iPhone (2) > iPad (1) > other (0). -/
def devicePriority (deviceName : String) : Nat :=
  let name := lowerStr deviceName
  if strIncludes name "iphone" && strIncludes name "pro max" then 4
  else if strIncludes name "iphone" && strIncludes name "pro" then 3
  else if strIncludes name "iphone" then 2
  else if strIncludes name "ipad" then 1
  else 0

/-- Match of the regex `/iOS[- ](\d+[.-]\d+)/i` at the head of the character
list: case-insensitive `iOS`, a dash or space, digits, `.` or `-`, digits;
returns the captured `\d+[.-]\d+` group. -/
def iosVerAt (cs : List Char) : Option (List Char) :=
  match cs with
  | c1 :: c2 :: c3 :: c4 :: rest =>
      if c1.toLower = 'i' ∧ c2.toLower = 'o' ∧ c3.toLower = 's' ∧ (c4 = '-' ∨ c4 = ' ') then
        match rest.span Char.isDigit with
        | (d1, rest1) =>
          if d1.isEmpty then none
          else
            match rest1 with
            | sep :: rest2 =>
                if sep = '.' ∨ sep = '-' then
                  match (rest2.span Char.isDigit).1 with
                  | [] => none
                  | d2 => some (d1 ++ sep :: d2)
                else none
            | [] => none
      else none
  | _ => none

/-- Leftmost match of `/iOS[- ](\d+[.-]\d+)/i` over the whole string. -/
def findIOSVer : List Char → Option (List Char)
  | [] => none
  | c :: rest =>
      match iosVerAt (c :: rest) with
      | some v => some v
      | none => findIOSVer rest

/-- JS `v.replace("-", ".")`: replace the first dash, if any. -/
def replaceFirstDash : List Char → List Char
  | [] => []
  | c :: rest => if c = '-' then '.' :: rest else c :: replaceFirstDash rest

/-- The runtime label shown to callers: `iOS <major>.<minor>` when the
runtime string matches the version regex, the raw runtime string otherwise. -/
def runtimeVersionOf (runtime : String) : String :=
  match findIOSVer runtime.data with
  | some v => "iOS " ++ String.mk (replaceFirstDash v)
  | none => runtime

/-- The discovery loop of `getBootedSimulators`: skip runtime families whose
lowercased label does not contain `"ios"`, keep `state == "Booted"` devices,
and attach the selection priority. -/
def bootedTargets (data : List (String × List SimDevice)) : List SimTarget :=
  data.foldl
    (fun acc rd =>
      if ¬ strIncludes (lowerStr rd.fst) "ios" then acc
      else
        acc ++ (rd.snd.filter (fun d => d.state == "Booted")).map
          (fun d =>
            { name := d.name
              udid := d.udid
              runtime := runtimeVersionOf rd.fst
              priority := devicePriority d.name }))
    []

/-- Stable insertion (descending priority): the inserted element goes before
the first strictly-smaller-priority element and after every element of equal
or higher priority seen so far. -/
def insertByPriority (t : SimTarget) : List SimTarget → List SimTarget
  | [] => [t]
  | u :: us => if u.priority ≤ t.priority then t :: u :: us else u :: insertByPriority t us

/-- The stable sort by descending `priority` performed by
`bootedDevices.sort((a, b) => b.priority - a.priority)` (ECMAScript sort is
stable, so any stable descending sort yields the same list). -/
def sortByPriorityDesc (l : List SimTarget) : List SimTarget :=
  l.foldr insertByPriority []

/-- `getBootedSimulators` on successfully parsed device data: filter, rank,
stable-sort, and strip the priority field. -/
def getBootedSimulatorsList (data : List (String × List SimDevice)) : List SimInfo :=
  (sortByPriorityDesc (bootedTargets data)).map
    (fun t => { name := t.name, udid := t.udid, runtime := t.runtime })

/-- `getBootedSimulators`: a failing `xcrun simctl list` query rejects the
whole call. -/
def getBootedSimulators (q : Except String (List (String × List SimDevice))) :
    Except String (List SimInfo) :=
  q.map getBootedSimulatorsList

/-- The result rows of `handleListSimulators`: every runtime family is
scanned (no mobile-family filter here), keeping `state == "Booted"` rows. -/
def listSimulatorsDevices (data : List (String × List SimDevice)) : List SimInfo :=
  data.foldl
    (fun acc rd =>
      acc ++ (rd.snd.filter (fun d => d.state == "Booted")).map
        (fun d => { name := d.name, udid := d.udid, runtime := runtimeVersionOf rd.fst }))
    []

/-- `handleListSimulators`: list every booted device of every runtime
family, with the empty-list and query-failure responses of the source. -/
def handleListSimulators (q : Except String (List (String × List SimDevice))) :
    MCPResult × List SimInfo :=
  match q with
  | .error msg =>
      ({ success := false
         error := some ("Failed to list simulators: " ++ msg)
         hint := some "Make sure Xcode Command Line Tools are installed" }, [])
  | .ok data =>
      let bootedDevices := listSimulatorsDevices data
      if bootedDevices.isEmpty then
        ({ success := true
           count := some 0
           message := some "No simulators are currently running" }, [])
      else
        ({ success := true, count := some bootedDevices.length }, bootedDevices)

/-- Outcome of one external screenshot-capture invocation: the promise
rejected, or it resolved and the destination file does / does not exist. -/
inductive CapOutcome where
  | throwErr (msg : String)
  | completed (fileCreated : Bool)
deriving DecidableEq, Repr

/-- Oracles for the external side-effecting primitives and the fresh-value
generators used by the capture handlers. -/
structure CaptureEnv where
  deviceQuery : Except String (List (String × List SimDevice))
  launch : Except String Unit
  captureOutcome : Nat → CapOutcome
  macCaptureOk : Nat → Bool
  openOk : String → Bool
  appContainer : String → String → Bool
  idGen : Nat → String
  tsGen : Nat → String
  nowGen : Nat → String

/-- Filesystem state of the handlers that touch more than the store file:
the store file, the files in the screenshots directory, and the
`pending-previews.json` handoff file. -/
structure FsState where
  storeFile : Option PreviewStore
  screenshots : List String
  pending : Option (List PreviewSet)
deriving DecidableEq, Repr

/-- The per-user screenshots directory. -/
def screenshotsDir (home : String) : String :=
  home ++ "/.muse-app-preview/screenshots"

/-- `handleResetAll`: refuse without `confirm: true`; otherwise delete every
screenshot file, clear the previews (load → clear → save), and delete the
pending-previews handoff file. -/
def handleResetAll (home : String) (confirm : Bool) (st : FsState) :
    MCPResult × FsState :=
  if ¬ confirm then
    ({ success := false
       error := some "Please set confirm: true to reset all data" }, st)
  else
    let store := loadStore home st.storeFile
    ({ success := true, message := some "Complete reset done" },
     { storeFile := saveStore { store with previews := [] }
       screenshots := []
       pending := none })

/-- The ordered rule table of `mapSimulatorToDeviceId`: the source's
`if`/`else if` chain written as (pattern, identifier) rows in the same
order; a condition `includes(p1) || includes(p2)` contributes two adjacent
rows with the same identifier, so first-match-wins over this table is
exactly the chain. -/
def deviceRules : List (String × String) :=
  [("iphone 15 pro max", "iphone_6_7"), ("iphone 16 pro max", "iphone_6_7"),
   ("iphone 15 pro", "iphone_6_1_pro"), ("iphone 16 pro", "iphone_6_1_pro"),
   ("iphone 15 plus", "iphone_6_7"), ("iphone 16 plus", "iphone_6_7"),
   ("iphone 15", "iphone_6_1"), ("iphone 16", "iphone_6_1"),
   ("iphone 14 pro max", "iphone_6_7"),
   ("iphone 14 pro", "iphone_6_1_pro"),
   ("iphone 14 plus", "iphone_6_7"),
   ("iphone 14", "iphone_6_1"),
   ("iphone se", "iphone_5_5"),
   ("ipad pro 12.9", "ipad_12_9"), ("ipad pro (12.9", "ipad_12_9"),
   ("ipad pro 11", "ipad_11"), ("ipad pro (11", "ipad_11"),
   ("ipad air", "ipad_10_9"),
   ("ipad mini", "ipad_8_3"),
   ("ipad", "ipad_10_9")]

/-- First matching rule wins; an entirely unmatched name falls back to
`"iphone_6_7"` (the final `return` of the source). -/
def mapDeviceIdRules (name : String) : String :=
  match deviceRules.find? (fun r => strIncludes name r.fst) with
  | some r => r.snd
  | none => "iphone_6_7"

/-- `mapSimulatorToDeviceId`: lowercase the simulator name, then apply the
prioritized rule list. -/
def mapSimulatorToDeviceId (simulatorName : String) : String :=
  mapDeviceIdRules (lowerStr simulatorName)

/-- Arguments of the `capture_simulator` tool. -/
structure CaptureSimArgs where
  title : String
  subtitle : String
  deviceId : Option String := none
  paletteId : Option String := none
  simulatorUDID : Option String := none
deriving DecidableEq, Repr

/-- `handleCaptureSimulator`: discover booted simulators (a discovery
failure is swallowed into an empty list), select the caller's UDID or the
first (highest-priority) entry, capture once, verify the file, and append a
preview whose deviceId defaults to the name-derived mapping. -/
def handleCaptureSimulator (env : CaptureEnv) (home : String)
    (args : CaptureSimArgs) (st : FsState) : MCPResult × FsState :=
  let bootedSimulators : List SimInfo :=
    match getBootedSimulators env.deviceQuery with
    | .ok l => l
    | .error _ => []
  if bootedSimulators.isEmpty then
    ({ success := false
       error := some "No iOS Simulator is running"
       hint := some "Please launch an iOS Simulator first using Xcode or 'xcrun simctl boot <device>'" },
     st)
  else
    let targetSimulator? : Option SimInfo :=
      match args.simulatorUDID with
      | some u => bootedSimulators.find? (fun s => s.udid == u)
      | none => bootedSimulators.head?
    match targetSimulator? with
    | none =>
        ({ success := false
           error := some ("Simulator with UDID " ++ orDefault args.simulatorUDID ""
             ++ " is not booted") }, st)
    | some targetSimulator =>
        let screenshotPath := screenshotsDir home ++ "/screenshot_"
          ++ safeName targetSimulator.name ++ "_" ++ env.tsGen 0 ++ ".png"
        match env.captureOutcome 0 with
        | .throwErr msg =>
            ({ success := false
               error := some ("Failed to capture from " ++ targetSimulator.name ++ ": " ++ msg) },
             st)
        | .completed fileCreated =>
            if ¬ fileCreated then
              ({ success := false, error := some "Failed to capture screenshot" }, st)
            else
              let autoDeviceId := mapSimulatorToDeviceId targetSimulator.name
              let store := loadStore home st.storeFile
              let preview : PreviewSet :=
                { id := env.idGen 0
                  screenshotPath := screenshotPath
                  title := args.title
                  subtitle := args.subtitle
                  deviceId := some (orDefault args.deviceId autoDeviceId)
                  paletteId := some (orDefault args.paletteId store.settings.defaultPaletteId)
                  createdAt := env.nowGen 0 }
              let store' := { store with previews := store.previews ++ [preview] }
              ({ success := true
                 message := some ("Screenshot captured from " ++ targetSimulator.name)
                 previews := [preview]
                 totalPreviews := some store'.previews.length },
               { st with
                  storeFile := saveStore store'
                  screenshots := st.screenshots ++ [screenshotPath] })

/-- One screen definition of the `capture_app_screens` tool. -/
structure ScreenDef where
  title : String
  subtitle : String
  paletteId : Option String := none
  waitSeconds : Option Nat := none
deriving DecidableEq, Repr

/-- Arguments of the `capture_app_screens` tool. -/
structure CaptureScreensArgs where
  bundleId : String
  screens : List ScreenDef
  simulatorUDID : Option String := none
deriving DecidableEq, Repr

/-- Net effect of a capture loop: the previews built from the screens whose
file materialized, the screenshot files written to disk, and the message of
the first rejected capture call, if any (a rejection stops the loop; files
already written stay on disk, previews collected so far are never saved). -/
structure CapLoopOut where
  previews : List PreviewSet
  files : List String
  err : Option String
deriving DecidableEq, Repr

/-- The per-screen capture loop of `handleCaptureAppScreens`: capture screen
`i` to `<bundle>_screen<i+1>_<timestamp>.png`; a rejected capture call
escapes to the handler's outer catch; otherwise the screen yields a preview
exactly when its output file exists, and the loop continues. -/
def capScreensLoop (env : CaptureEnv) (home bundleId defaultPalette autoDeviceId : String) :
    List ScreenDef → Nat → CapLoopOut
  | [], _ => { previews := [], files := [], err := none }
  | screen :: rest, i =>
      match env.captureOutcome i with
      | .throwErr msg => { previews := [], files := [], err := some msg }
      | .completed fileCreated =>
          let screenshotPath := screenshotsDir home ++ "/" ++ safeName bundleId
            ++ "_screen" ++ toString (i + 1) ++ "_" ++ env.tsGen i ++ ".png"
          let out := capScreensLoop env home bundleId defaultPalette autoDeviceId rest (i + 1)
          if fileCreated then
            { previews :=
                { id := env.idGen i
                  screenshotPath := screenshotPath
                  title := screen.title
                  subtitle := screen.subtitle
                  deviceId := some autoDeviceId
                  paletteId := some (orDefault screen.paletteId defaultPalette)
                  createdAt := env.nowGen i } :: out.previews
              files := screenshotPath :: out.files
              err := out.err }
          else out

/-- `handleCaptureAppScreens`: one terminate/launch cycle, then the
per-screen loop; the collected previews are appended to the store and saved
only after the loop finishes without a rejected capture call. -/
def handleCaptureAppScreens (env : CaptureEnv) (home : String)
    (args : CaptureScreensArgs) (st : FsState) : MCPResult × FsState :=
  if args.screens.isEmpty then
    ({ success := false, error := some "No screens defined to capture" }, st)
  else
    match getBootedSimulators env.deviceQuery with
    | .error msg =>
        ({ success := false
           error := some ("Capture app screens failed: " ++ msg) }, st)
    | .ok bootedSimulators =>
        if bootedSimulators.isEmpty then
          ({ success := false, error := some "No iOS Simulator is running" }, st)
        else
          let targetSimulator? : Option SimInfo :=
            match args.simulatorUDID with
            | some u => bootedSimulators.find? (fun s => s.udid == u)
            | none => bootedSimulators.head?
          match targetSimulator? with
          | none => ({ success := false, error := some "Specified simulator not found" }, st)
          | some targetSimulator =>
              match env.launch with
              | .error msg =>
                  ({ success := false
                     error := some ("Capture app screens failed: " ++ msg) }, st)
              | .ok _ =>
                  let store := loadStore home st.storeFile
                  let autoDeviceId := mapSimulatorToDeviceId targetSimulator.name
                  let out := capScreensLoop env home args.bundleId
                    store.settings.defaultPaletteId autoDeviceId args.screens 0
                  match out.err with
                  | some msg =>
                      ({ success := false
                         error := some ("Capture app screens failed: " ++ msg) },
                       { st with screenshots := st.screenshots ++ out.files })
                  | none =>
                      let store' := { store with previews := store.previews ++ out.previews }
                      ({ success := true
                         message := some ("Captured " ++ toString out.previews.length
                           ++ " screens from " ++ args.bundleId)
                         previews := out.previews
                         totalPreviews := some store'.previews.length },
                       { st with
                          storeFile := saveStore store'
                          screenshots := st.screenshots ++ out.files })

/-- One preview definition of the `create_app_previews` tool. -/
structure PreviewDef where
  title : String
  subtitle : String
  paletteId : Option String := none
deriving DecidableEq, Repr

/-- The `platform` enum of the `create_app_previews` tool. -/
inductive AppPlatform where
  | ios
  | macos
  | watchos
deriving DecidableEq, Repr

/-- Arguments of the `create_app_previews` tool (no confirmation flag is
declared in its schema). -/
structure CreateAppArgs where
  bundleId : String
  appName : String
  appDescription : Option String := none
  platform : AppPlatform
  language : String
  screenCount : Option Nat := none
  previews : Option (List PreviewDef) := none
  simulatorUDID : Option String := none
deriving DecidableEq, Repr

/-- The fixed palette rotation of `handleCreateAppPreviews`. -/
def palettes : List String := ["ocean", "sunset", "forest", "lavender", "coral"]

/-- `palettes[i % palettes.length]`. -/
def paletteAt (i : Nat) : String :=
  palettes.getD (i % palettes.length) "ocean"

/-- The fixed identifier of the external rendering application. -/
def APP_BUNDLE_ID : String := "musepreviewmaker.loro"

/-- The macOS capture loop of `handleCreateAppPreviews`:
`captureMacOSWindow` reports success as a boolean (its own failures are
caught internally), so this loop cannot reject; a window capture that
produced no file is skipped. -/
def createMacLoop (env : CaptureEnv) (home deviceId : String) :
    List PreviewDef → Nat → List PreviewSet × List String
  | [], _ => ([], [])
  | def1 :: rest, i =>
      let screenshotPath := screenshotsDir home ++ "/mac_" ++ toString (i + 1)
        ++ "_" ++ env.tsGen i ++ ".png"
      let out := createMacLoop env home deviceId rest (i + 1)
      if env.macCaptureOk i then
        ({ id := env.idGen i
           screenshotPath := screenshotPath
           title := def1.title
           subtitle := def1.subtitle
           deviceId := some deviceId
           paletteId := some (orDefault def1.paletteId (paletteAt i))
           createdAt := env.nowGen i } :: out.1,
         screenshotPath :: out.2)
      else out

/-- The iOS/watchOS capture loop of `handleCreateAppPreviews`: like
`capScreensLoop`, but the screenshot files are named `ios_<i+1>_<ts>.png`
and an unspecified per-entry palette rotates through the fixed palette
list. -/
def createIOSLoop (env : CaptureEnv) (home deviceId : String) :
    List PreviewDef → Nat → CapLoopOut
  | [], _ => { previews := [], files := [], err := none }
  | def1 :: rest, i =>
      match env.captureOutcome i with
      | .throwErr msg => { previews := [], files := [], err := some msg }
      | .completed fileCreated =>
          let screenshotPath := screenshotsDir home ++ "/ios_" ++ toString (i + 1)
            ++ "_" ++ env.tsGen i ++ ".png"
          let out := createIOSLoop env home deviceId rest (i + 1)
          if fileCreated then
            { previews :=
                { id := env.idGen i
                  screenshotPath := screenshotPath
                  title := def1.title
                  subtitle := def1.subtitle
                  deviceId := some deviceId
                  paletteId := some (orDefault def1.paletteId (paletteAt i))
                  createdAt := env.nowGen i } :: out.previews
              files := screenshotPath :: out.files
              err := out.err }
          else out

/-- The target-simulator resolution of `handleCreateAppPreviews`: the
caller's UDID if booted, else the first booted simulator hosting the app,
else the first booted simulator. -/
def pickCreateTarget (env : CaptureEnv) (bundleId : String)
    (udid : Option String) (sims : List SimInfo) : Option SimInfo :=
  let byUdid : Option SimInfo :=
    match udid with
    | some u => sims.find? (fun s => s.udid == u)
    | none => none
  match byUdid with
  | some t => some t
  | none =>
      match sims.find? (fun s => env.appContainer s.udid bundleId) with
      | some t => some t
      | none => sims.head?

/-- `handleCreateAppPreviews`: Step 1 deletes every screenshot file and
persists a cleared previews list (no confirmation flag exists); missing
preview definitions then return a needs-input failure (after the reset was
already saved); otherwise the platform-specific capture loop runs, the
captured previews are saved, the handoff file is written, and the rendering
application is activated (falling back to revealing the data directory). -/
def handleCreateAppPreviews (env : CaptureEnv) (home : String)
    (args : CreateAppArgs) (st : FsState) : MCPResult × FsState :=
  let screenCount : Nat :=
    match args.screenCount with
    | some n => if n = 0 then 3 else n
    | none => 3
  let store := loadStore home st.storeFile
  let clearedStore := { store with previews := ([] : List PreviewSet) }
  let st1 : FsState :=
    { storeFile := saveStore clearedStore, screenshots := [], pending := st.pending }
  let deviceId0 : String :=
    match args.platform with
    | .macos => "mac_retina"
    | .watchos => "watch_45mm"
    | .ios => "iphone_6_7"
  let previewDefs : List PreviewDef := args.previews.getD []
  if previewDefs.isEmpty then
    ({ success := false
       needsInput := true
       message := some "Please provide preview titles and subtitles"
       hint := some ("Generate " ++ toString screenCount ++ " marketing phrases for "
         ++ args.appName ++ " in " ++ args.language) },
     st1)
  else
    match args.platform with
    | .macos =>
        if ¬ env.openOk args.bundleId then
          ({ success := false
             error := some ("App not found: " ++ args.bundleId)
             hint := some "Make sure the macOS app is installed" }, st1)
        else
          let out := createMacLoop env home deviceId0 previewDefs 0
          let finalStore := { clearedStore with previews := out.1 }
          let appOpened := env.openOk APP_BUNDLE_ID
          ({ success := true
             message := some (if appOpened then
                 "Created " ++ toString out.1.length ++ " preview(s) and opened MUSE Preview Maker"
               else
                 "Created " ++ toString out.1.length ++ " preview(s). MUSE Preview Maker not installed.")
             previews := out.1 },
           { storeFile := saveStore finalStore
             screenshots := out.2
             pending := some finalStore.previews })
    | _ =>
        match getBootedSimulators env.deviceQuery with
        | .error msg =>
            ({ success := false
               error := some ("Create app previews failed: " ++ msg) }, st1)
        | .ok bootedSimulators =>
            if bootedSimulators.isEmpty then
              ({ success := false
                 error := some "No iOS Simulator is running"
                 hint := some "Please launch an iOS Simulator first" }, st1)
            else
              match pickCreateTarget env args.bundleId args.simulatorUDID bootedSimulators with
              | none =>
                  ({ success := false
                     error := some "No iOS Simulator is running" }, st1)
              | some targetSimulator =>
                  match env.launch with
                  | .error msg =>
                      ({ success := false
                         error := some ("Failed to launch app: " ++ msg)
                         hint := some "Make sure the app is installed on the simulator" }, st1)
                  | .ok _ =>
                      let deviceId := mapSimulatorToDeviceId targetSimulator.name
                      let out := createIOSLoop env home deviceId previewDefs 0
                      match out.err with
                      | some msg =>
                          ({ success := false
                             error := some ("Create app previews failed: " ++ msg) },
                           { st1 with screenshots := out.files })
                      | none =>
                          let finalStore := { clearedStore with previews := out.previews }
                          let appOpened := env.openOk APP_BUNDLE_ID
                          ({ success := true
                             message := some (if appOpened then
                                 "Created " ++ toString out.previews.length
                                   ++ " preview(s) and opened MUSE Preview Maker"
                               else
                                 "Created " ++ toString out.previews.length
                                   ++ " preview(s). MUSE Preview Maker not installed.")
                             previews := out.previews },
                           { storeFile := saveStore finalStore
                             screenshots := out.files
                             pending := some finalStore.previews })

/-- Specification-level store fixture used by concrete instances below. -/
def plainSettings : StoreSettings :=
  { defaultDeviceType := "iphone_6_7"
    defaultPaletteId := "ocean"
    outputDirectory := "/h/out"
    language := "ko" }

/-- A store whose settings carry an empty `language` field (a pre-`language`
store file, or one explicitly saved with the empty string). -/
def blankLangStore : PreviewStore :=
  { previews := [], settings := { plainSettings with language := "" } }

/-- The closed set of canonical device identifiers `mapSimulatorToDeviceId`
can return. -/
def deviceIdSet : List String :=
  ["iphone_6_7", "iphone_6_1_pro", "iphone_6_1", "iphone_5_5",
   "ipad_12_9", "ipad_11", "ipad_10_9", "ipad_8_3"]

/-- The substring patterns of every specific mapping rule (everything before
the generic bare-`"ipad"` rule and the final fallback). -/
def specificPatterns : List String :=
  ["iphone 15 pro max", "iphone 16 pro max", "iphone 15 pro", "iphone 16 pro",
   "iphone 15 plus", "iphone 16 plus", "iphone 15", "iphone 16",
   "iphone 14 pro max", "iphone 14 pro", "iphone 14 plus", "iphone 14",
   "iphone se", "ipad pro 12.9", "ipad pro (12.9", "ipad pro 11",
   "ipad pro (11", "ipad air", "ipad mini"]

/-- The highest priority occurring in a discovery list (0 when empty). -/
def maxPrio (l : List SimTarget) : Nat :=
  l.foldr (fun t m => max t.priority m) 0

/-- The ids of a previews sequence. -/
def idsOf (l : List PreviewSet) : List String :=
  l.map PreviewSet.id

/-- One mutating store operation of the append/remove/update algebra. -/
inductive StoreOp where
  | add (freshId now : String) (args : AddPreviewArgs)
  | remove (id : String)
  | update (args : UpdatePreviewArgs)

/-- The persisted-file effect of one store operation (the handlers as
translated above). -/
def applyOp (fs : String → Bool) (home : String) (file : Option PreviewStore) :
    StoreOp → Option PreviewStore
  | .add freshId now args => (handleAddPreview fs home freshId now args file).2
  | .remove id => (handleRemovePreview home id file).2
  | .update args => (handleUpdatePreview fs home args file).2

/-- The persisted-file effect of a sequence of store operations. -/
def applyOps (fs : String → Bool) (home : String) :
    List StoreOp → Option PreviewStore → Option PreviewStore
  | [], file => file
  | op :: ops, file => applyOps fs home ops (applyOp fs home file op)

/-- Specification-level semantics of one operation on the previews sequence,
following the spec's words: an append goes to the end (when its screenshot
exists), a remove deletes the records with the removed id, an update
rewrites the matching record in place without reordering (when the id is
present and a truthy new screenshot path exists). -/
def specOp (fs : String → Bool) (s : StoreSettings) (l : List PreviewSet) :
    StoreOp → List PreviewSet
  | .add freshId now args =>
      if fs args.screenshotPath then l ++ [addPreviewRecord freshId now args s] else l
  | .remove id => l.filter (fun p => !(p.id == id))
  | .update args =>
      if l.any (fun p => p.id == args.id) && updateScreenshotOk fs args then
        l.map (fun p => if p.id == args.id then updatedPreview args p else p)
      else l

/-- Specification-level semantics of a sequence of operations. -/
def specOps (fs : String → Bool) (s : StoreSettings) :
    List StoreOp → List PreviewSet → List PreviewSet
  | [], l => l
  | op :: ops, l => specOps fs s ops (specOp fs s l op)

/-- The fresh ids consumed by the append operations of a sequence. -/
def addIds : List StoreOp → List String
  | [] => []
  | .add freshId _ _ :: ops => freshId :: addIds ops
  | .remove _ :: ops => addIds ops
  | .update _ :: ops => addIds ops

/-- A capture environment for concrete scenarios: the given device-query
result and per-index capture outcomes, deterministic generators, every
other external probe failing/absent. -/
def testEnv (q : Except String (List (String × List SimDevice)))
    (outcomes : List CapOutcome) : CaptureEnv :=
  { deviceQuery := q
    launch := .ok ()
    captureOutcome := fun i => outcomes.getD i (.completed false)
    macCaptureOk := fun _ => false
    openOk := fun _ => false
    appContainer := fun _ _ => false
    idGen := fun i => "id" ++ toString i
    tsGen := fun i => "ts" ++ toString i
    nowGen := fun i => "now" ++ toString i }

/-- Device data of the C5 scenario: three booted iOS simulators discovered
in the order iPad Air, iPhone 15 Pro Max, iPhone 15. -/
def c5Data : List (String × List SimDevice) :=
  [("iOS 17.0",
    [{ name := "iPad Air", udid := "U1", state := "Booted" },
     { name := "iPhone 15 Pro Max", udid := "U2", state := "Booted" },
     { name := "iPhone 15", udid := "U3", state := "Booted" }])]

/-- Arguments of a `capture_simulator` call with no target handle. -/
def c5CapArgs : CaptureSimArgs := { title := "T", subtitle := "S" }

/-- A filesystem state holding an empty store with plain settings. -/
def emptyStoreSt : FsState :=
  { storeFile := some { previews := [], settings := plainSettings }
    screenshots := []
    pending := none }

/-- Device data with a booted wearable-family device only. -/
def watchData : List (String × List SimDevice) :=
  [("watchOS 10.0",
    [{ name := "Apple Watch Series 9 (45mm)", udid := "W1", state := "Booted" }])]

/-- Device data of the C1 scenario: one booted iPhone 15. -/
def c1Data : List (String × List SimDevice) :=
  [("iOS 17.0", [{ name := "iPhone 15", udid := "UD1", state := "Booted" }])]

/-- The three screen definitions of the C1 scenario. -/
def c1Screens : List ScreenDef :=
  [{ title := "T1", subtitle := "S1" },
   { title := "T2", subtitle := "S2" },
   { title := "T3", subtitle := "S3" }]

/-- The `capture_app_screens` arguments of the C1 scenario. -/
def c1Args : CaptureScreensArgs := { bundleId := "com.x.app", screens := c1Screens }

/-- A preview record already persisted before the C9 scenario runs. -/
def c9Preview : PreviewSet :=
  { id := "p1"
    screenshotPath := "/shots/a.png"
    title := "T"
    subtitle := "S"
    deviceId := some "iphone_6_7"
    paletteId := some "ocean"
    createdAt := "2024-01-01" }

/-- A store holding one preview, with one screenshot file on disk. -/
def c9St : FsState :=
  { storeFile := some { previews := [c9Preview], settings := plainSettings }
    screenshots := ["/shots/a.png"]
    pending := none }

/-- A `create_app_previews` call carrying no preview definitions and, as its
schema dictates, no confirmation flag of any kind. -/
def c9Args : CreateAppArgs :=
  { bundleId := "com.x.app", appName := "X", platform := .ios, language := "en" }

/-- C1 environment where the capture primitive resolves for screens 1 and 3
but its output file fails to materialize for screen 2. -/
def c1EnvSkip : CaptureEnv :=
  testEnv (.ok c1Data) [.completed true, .completed false, .completed true]

/-- C1 environment where the capture primitive throws on screen 2. -/
def c1EnvThrow : CaptureEnv :=
  testEnv (.ok c1Data) [.completed true, .throwErr "boom", .completed true]

theorem loadStore_language_ne (home : String) (file : Option PreviewStore) :
    (loadStore home file).settings.language ≠ "" := by
  cases file with
  | none => simp [loadStore, defaultStore, defaultSettings]
  | some s =>
      by_cases h : s.settings.language = "" <;> simp [loadStore, h]

theorem loadStore_saveStore (home : String) (store : PreviewStore)
    (h : store.settings.language ≠ "") : loadStore home (saveStore store) = store := by
  simp [loadStore, saveStore, h]

/-- C3 (counterexample): the round-trip claim fails as universally stated —
a store saved with an empty `language` setting is loaded back with
`language = "ko"`, so `load(save(store)) ≠ store`. -/
theorem C3_round_trip_counterexample :
    loadStore "/h" (saveStore blankLangStore) ≠ blankLangStore := by
  decide

/-- C3 (amended): `save` followed by `load` reproduces the store
field-for-field for every store whose `settings.language` is non-empty;
a store saved with an empty/missing `language` is loaded back with the
fixed default `"ko"` and is otherwise unchanged; and the full factory
defaults are produced exactly on a first-ever load (no persisted file). -/
theorem C3_round_trip_amended (home : String) (s : PreviewStore)
    (h : s.settings.language ≠ "") :
    loadStore home (saveStore s) = s ∧
    (∀ s' : PreviewStore, s'.settings.language = "" →
      loadStore home (saveStore s')
        = { s' with settings := { s'.settings with language := "ko" } }) ∧
    loadStore home none = defaultStore home := by
  refine ⟨loadStore_saveStore home s h, ?_, rfl⟩
  intro s' h'
  simp [loadStore, saveStore, h']

theorem C3_round_trip_amended_witness :
    loadStore "/h" (saveStore { previews := [], settings := plainSettings })
      = { previews := [], settings := plainSettings } ∧
    loadStore "/h" (saveStore blankLangStore)
      = { blankLangStore with
          settings := { blankLangStore.settings with language := "ko" } } :=
  ⟨(C3_round_trip_amended "/h" { previews := [], settings := plainSettings }
      (by decide)).1,
   (C3_round_trip_amended "/h" { previews := [], settings := plainSettings }
      (by decide)).2.1 blankLangStore (by decide)⟩

/-- C6: a first-ever load (no persisted file) yields the empty collection
and the factory defaults — device `"iphone_6_7"`, palette `"ocean"`,
output directory `<home>/Desktop/Previews`, language `"ko"` — and a
persisted store missing its optional `language` settings field receives the
same fixed default on load. -/
theorem C6_first_load_defaults (home : String) :
    loadStore home none
      = { previews := []
          settings :=
            { defaultDeviceType := "iphone_6_7"
              defaultPaletteId := "ocean"
              outputDirectory := home ++ "/Desktop/Previews"
              language := "ko" } } ∧
    (∀ s : PreviewStore, s.settings.language = "" →
      loadStore home (some s)
        = { s with settings := { s.settings with language := "ko" } }) := by
  refine ⟨rfl, ?_⟩
  intro s h
  simp [loadStore, h]

theorem C6_first_load_defaults_witness :
    loadStore "/h" none
      = { previews := []
          settings :=
            { defaultDeviceType := "iphone_6_7"
              defaultPaletteId := "ocean"
              outputDirectory := "/h/Desktop/Previews"
              language := "ko" } } ∧
    loadStore "/h" (some blankLangStore)
      = { blankLangStore with
          settings := { blankLangStore.settings with language := "ko" } } :=
  ⟨(C6_first_load_defaults "/h").1,
   (C6_first_load_defaults "/h").2 blankLangStore (by decide)⟩

/-- C7: `add_preview` with a screenshot path that does not exist returns
`success: false` with the not-found error and leaves the persisted store
file completely unchanged. -/
theorem C7_add_missing_screenshot (fs : String → Bool)
    (home freshId now : String) (args : AddPreviewArgs)
    (file : Option PreviewStore) (h : fs args.screenshotPath = false) :
    (handleAddPreview fs home freshId now args file).1.success = false ∧
    (handleAddPreview fs home freshId now args file).1.error
      = some ("Screenshot not found: " ++ args.screenshotPath) ∧
    (handleAddPreview fs home freshId now args file).2 = file := by
  simp [handleAddPreview, h]

theorem C7_add_missing_screenshot_witness :
    ((fun _ => false : String → Bool) "/missing.png" = false) ∧
    (handleAddPreview (fun _ => false) "/h" "id1" "t1"
        { screenshotPath := "/missing.png", title := "A", subtitle := "B" }
        (some { previews := [], settings := plainSettings })).1.success = false ∧
    (handleAddPreview (fun _ => false) "/h" "id1" "t1"
        { screenshotPath := "/missing.png", title := "A", subtitle := "B" }
        (some { previews := [], settings := plainSettings })).2
      = some { previews := [], settings := plainSettings } := by
  have h := C7_add_missing_screenshot (fun _ => false) "/h" "id1" "t1"
    { screenshotPath := "/missing.png", title := "A", subtitle := "B" }
    (some { previews := [], settings := plainSettings }) rfl
  exact ⟨rfl, h.1, h.2.2⟩

/-- C10: in `update_preview` and `update_settings` a supplied field whose
value is the empty string is treated exactly as if the field were omitted
(JS truthiness: `""` is falsy), so the stored field keeps its prior value
and no field can be set to the empty string through these operations.  Each
conjunct equates the handler call with `some ""` to the call with the field
omitted. -/
theorem C10_empty_string_as_omitted (fs : String → Bool) (home : String)
    (args : UpdatePreviewArgs) (sargs : UpdateSettingsArgs)
    (file : Option PreviewStore) :
    (handleUpdatePreview fs home { args with title := some "" } file
      = handleUpdatePreview fs home { args with title := none } file) ∧
    (handleUpdatePreview fs home { args with subtitle := some "" } file
      = handleUpdatePreview fs home { args with subtitle := none } file) ∧
    (handleUpdatePreview fs home { args with screenshotPath := some "" } file
      = handleUpdatePreview fs home { args with screenshotPath := none } file) ∧
    (handleUpdatePreview fs home { args with deviceId := some "" } file
      = handleUpdatePreview fs home { args with deviceId := none } file) ∧
    (handleUpdatePreview fs home { args with paletteId := some "" } file
      = handleUpdatePreview fs home { args with paletteId := none } file) ∧
    (handleUpdateSettings home { sargs with defaultDeviceType := some "" } file
      = handleUpdateSettings home { sargs with defaultDeviceType := none } file) ∧
    (handleUpdateSettings home { sargs with defaultPaletteId := some "" } file
      = handleUpdateSettings home { sargs with defaultPaletteId := none } file) ∧
    (handleUpdateSettings home { sargs with outputDirectory := some "" } file
      = handleUpdateSettings home { sargs with outputDirectory := none } file) ∧
    (handleUpdateSettings home { sargs with language := some "" } file
      = handleUpdateSettings home { sargs with language := none } file) :=
  ⟨rfl, rfl, rfl, rfl, rfl, rfl, rfl, rfl, rfl⟩

/-- C4: the target-name mapping is total and deterministic, returns one
identifier of a small closed set and never the empty string; a name
matching no specific rule but containing `"ipad"` maps to the generic
tablet identifier `"ipad_10_9"`, and a name matching no rule at all maps to
the generic large-phone fallback `"iphone_6_7"`. -/
theorem C4_device_mapping (name : String) :
    (mapSimulatorToDeviceId name ∈ deviceIdSet ∧ mapSimulatorToDeviceId name ≠ "") ∧
    (∀ other : String, other = name →
      mapSimulatorToDeviceId other = mapSimulatorToDeviceId name) ∧
    ((∀ pat ∈ specificPatterns, strIncludes (lowerStr name) pat = false) →
      strIncludes (lowerStr name) "ipad" = true →
      mapSimulatorToDeviceId name = "ipad_10_9") ∧
    ((∀ pat ∈ specificPatterns, strIncludes (lowerStr name) pat = false) →
      strIncludes (lowerStr name) "ipad" = false →
      mapSimulatorToDeviceId name = "iphone_6_7") := by
  have core : ∀ lname : String,
      mapDeviceIdRules lname ∈ deviceIdSet ∧ mapDeviceIdRules lname ≠ "" := by
    intro lname
    have hall : ∀ r ∈ deviceRules, r.snd ∈ deviceIdSet ∧ r.snd ≠ "" := by decide
    unfold mapDeviceIdRules
    cases hf : deviceRules.find? (fun r => strIncludes lname r.fst) with
    | none => exact ⟨by decide, by decide⟩
    | some r => exact hall r (List.mem_of_find?_eq_some hf)
  refine ⟨core (lowerStr name), ?_, ?_, ?_⟩
  · intro other h
    rw [h]
  · intro h hp
    have h1 := h "iphone 15 pro max" (by decide)
    have h2 := h "iphone 16 pro max" (by decide)
    have h3 := h "iphone 15 pro" (by decide)
    have h4 := h "iphone 16 pro" (by decide)
    have h5 := h "iphone 15 plus" (by decide)
    have h6 := h "iphone 16 plus" (by decide)
    have h7 := h "iphone 15" (by decide)
    have h8 := h "iphone 16" (by decide)
    have h9 := h "iphone 14 pro max" (by decide)
    have h10 := h "iphone 14 pro" (by decide)
    have h11 := h "iphone 14 plus" (by decide)
    have h12 := h "iphone 14" (by decide)
    have h13 := h "iphone se" (by decide)
    have h14 := h "ipad pro 12.9" (by decide)
    have h15 := h "ipad pro (12.9" (by decide)
    have h16 := h "ipad pro 11" (by decide)
    have h17 := h "ipad pro (11" (by decide)
    have h18 := h "ipad air" (by decide)
    have h19 := h "ipad mini" (by decide)
    simp [mapSimulatorToDeviceId, mapDeviceIdRules, deviceRules, h1, h2, h3,
      h4, h5, h6, h7, h8, h9, h10, h11, h12, h13, h14, h15, h16, h17, h18,
      h19, hp]
  · intro h hp
    have h1 := h "iphone 15 pro max" (by decide)
    have h2 := h "iphone 16 pro max" (by decide)
    have h3 := h "iphone 15 pro" (by decide)
    have h4 := h "iphone 16 pro" (by decide)
    have h5 := h "iphone 15 plus" (by decide)
    have h6 := h "iphone 16 plus" (by decide)
    have h7 := h "iphone 15" (by decide)
    have h8 := h "iphone 16" (by decide)
    have h9 := h "iphone 14 pro max" (by decide)
    have h10 := h "iphone 14 pro" (by decide)
    have h11 := h "iphone 14 plus" (by decide)
    have h12 := h "iphone 14" (by decide)
    have h13 := h "iphone se" (by decide)
    have h14 := h "ipad pro 12.9" (by decide)
    have h15 := h "ipad pro (12.9" (by decide)
    have h16 := h "ipad pro 11" (by decide)
    have h17 := h "ipad pro (11" (by decide)
    have h18 := h "ipad air" (by decide)
    have h19 := h "ipad mini" (by decide)
    simp [mapSimulatorToDeviceId, mapDeviceIdRules, deviceRules, h1, h2, h3,
      h4, h5, h6, h7, h8, h9, h10, h11, h12, h13, h14, h15, h16, h17, h18,
      h19, hp]

theorem C4_device_mapping_witness :
    mapSimulatorToDeviceId "iPad (10th generation)" = "ipad_10_9" ∧
    mapSimulatorToDeviceId "Apple Vision Pro" = "iphone_6_7" :=
  ⟨(C4_device_mapping "iPad (10th generation)").2.2.1 (by decide) (by decide),
   (C4_device_mapping "Apple Vision Pro").2.2.2 (by decide) (by decide)⟩

/-- C8: with a booted wearable-family device, the `list_simulators` handler
includes it in its result (count 1, success), while the capture-target
discovery `getBootedSimulators` correctly filters it out — the listing tool
contradicts its own "List all booted iOS Simulators that can be captured"
description. -/
theorem C8_list_includes_watch_device :
    ((handleListSimulators (.ok watchData)).2.map SimInfo.name
        = ["Apple Watch Series 9 (45mm)"] ∧
      (handleListSimulators (.ok watchData)).1.count = some 1 ∧
      (handleListSimulators (.ok watchData)).1.success = true) ∧
    getBootedSimulatorsList watchData = [] := by
  decide

/-- C9 (counterexample): `create_app_previews` — whose schema declares no
confirmation flag — clears every persisted preview and deletes every
screenshot file as its first step, even on the needs-input failure path:
an operation that clears all previews without any confirmation flag. -/
theorem C9_create_app_previews_counterexample :
    (handleCreateAppPreviews (testEnv (.ok []) []) "/h" c9Args c9St).2.storeFile
      = some { previews := [], settings := plainSettings } ∧
    (handleCreateAppPreviews (testEnv (.ok []) []) "/h" c9Args c9St).2.screenshots = [] ∧
    (handleCreateAppPreviews (testEnv (.ok []) []) "/h" c9Args c9St).1.success = false := by
  decide

/-- C9 (amended): `clear_all` and `reset_all` do require the explicit
confirmation flag — with `confirm` false they return a structured failure
and mutate nothing — but `create_app_previews` clears all previews and
screenshots without any such flag (see the counterexample). -/
theorem C9_confirmation_amended (home : String) (file : Option PreviewStore)
    (st : FsState) :
    ((handleClearAll home false file).1.success = false ∧
      (handleClearAll home false file).1.error.isSome = true ∧
      (handleClearAll home false file).2 = file) ∧
    ((handleResetAll home false st).1.success = false ∧
      (handleResetAll home false st).1.error.isSome = true ∧
      (handleResetAll home false st).2 = st) :=
  ⟨⟨rfl, rfl, rfl⟩, rfl, rfl, rfl⟩

/-- C1 (counterexample): with three screen definitions and a capture
primitive that throws on screen 2, the whole operation aborts with a
structured failure and zero PreviewSets are persisted (the store file is
unchanged), not two. -/
theorem C1_throw_aborts_counterexample :
    (handleCaptureAppScreens c1EnvThrow "/h" c1Args emptyStoreSt).2.storeFile
      = some { previews := [], settings := plainSettings } ∧
    (handleCaptureAppScreens c1EnvThrow "/h" c1Args emptyStoreSt).1.success = false ∧
    (handleCaptureAppScreens c1EnvThrow "/h" c1Args emptyStoreSt).1.error
      = some "Capture app screens failed: boom" ∧
    (handleCaptureAppScreens c1EnvThrow "/h" c1Args emptyStoreSt).1.previews.length
      = 0 := by
  decide

/-- C1 (amended): the skip-and-continue policy applies to a screen whose
capture call resolves but whose output file fails to materialize: with
three screens and no file for screen 2, exactly the two PreviewSets of
screens 1 and 3 are persisted in order, the screen is neither retried nor
fatal, and the returned count reflects only the screens that produced a
file; a capture call that throws instead aborts the whole operation and
persists nothing (see the counterexample). -/
theorem C1_amended_skip_and_continue :
    (handleCaptureAppScreens c1EnvSkip "/h" c1Args emptyStoreSt).1.success = true ∧
    (handleCaptureAppScreens c1EnvSkip "/h" c1Args emptyStoreSt).1.message
      = some "Captured 2 screens from com.x.app" ∧
    (handleCaptureAppScreens c1EnvSkip "/h" c1Args emptyStoreSt).2.storeFile
      = some
        { previews :=
            [{ id := "id0"
               screenshotPath := "/h/.muse-app-preview/screenshots/com_x_app_screen1_ts0.png"
               title := "T1"
               subtitle := "S1"
               deviceId := some "iphone_6_1"
               paletteId := some "ocean"
               createdAt := "now0" },
             { id := "id2"
               screenshotPath := "/h/.muse-app-preview/screenshots/com_x_app_screen3_ts2.png"
               title := "T3"
               subtitle := "S3"
               deviceId := some "iphone_6_1"
               paletteId := some "ocean"
               createdAt := "now2" }]
          settings := plainSettings } := by
  decide

theorem length_insertByPriority (t : SimTarget) (l : List SimTarget) :
    (insertByPriority t l).length = l.length + 1 := by
  induction l with
  | nil => rfl
  | cons u us ih =>
      by_cases h : u.priority ≤ t.priority <;> simp [insertByPriority, h, ih]

theorem length_sortByPriorityDesc (l : List SimTarget) :
    (sortByPriorityDesc l).length = l.length := by
  induction l with
  | nil => rfl
  | cons a rest ih =>
      show (insertByPriority a (sortByPriorityDesc rest)).length = rest.length + 1
      rw [length_insertByPriority, ih]

theorem mem_le_maxPrio {t : SimTarget} {l : List SimTarget} (h : t ∈ l) :
    t.priority ≤ maxPrio l := by
  induction l with
  | nil => cases h
  | cons a rest ih =>
      rcases List.mem_cons.mp h with h' | h'
      · subst h'
        exact Nat.le_max_left _ _
      · exact Nat.le_trans (ih h') (Nat.le_max_right _ _)

theorem head_sortByPriorityDesc (l : List SimTarget) :
    (sortByPriorityDesc l).head?
      = l.find? (fun t => decide (maxPrio l ≤ t.priority)) := by
  induction l with
  | nil => rfl
  | cons a rest ih =>
      show (insertByPriority a (sortByPriorityDesc rest)).head? = _
      cases hs : sortByPriorityDesc rest with
      | nil =>
          have hrest : rest = [] := by
            have := length_sortByPriorityDesc rest
            rw [hs] at this
            exact List.length_eq_zero.mp this.symm
          subst hrest
          simp [insertByPriority, maxPrio, List.find?]
      | cons u us =>
          have hfind : rest.find? (fun t => decide (maxPrio rest ≤ t.priority)) = some u := by
            rw [← ih, hs]; rfl
          have pu : maxPrio rest ≤ u.priority := by
            have hdec := List.find?_some hfind
            simpa using hdec
          have um : u ∈ rest := List.mem_of_find?_eq_some hfind
          have ueq : u.priority = maxPrio rest :=
            Nat.le_antisymm (mem_le_maxPrio um) pu
          have hmax : maxPrio (a :: rest) = max a.priority (maxPrio rest) := rfl
          by_cases hle : u.priority ≤ a.priority
          · have hm : maxPrio (a :: rest) = a.priority := by
              rw [hmax]; omega
            have hpa : (fun t : SimTarget =>
                decide (maxPrio (a :: rest) ≤ t.priority)) a = true := by
              simp [hm]
            rw [List.find?_cons_of_pos rest hpa]
            show (insertByPriority a (u :: us)).head? = some a
            simp [insertByPriority, hle]
          · have hm : maxPrio (a :: rest) = maxPrio rest := by
              rw [hmax]; omega
            have hpa : ¬ ((fun t : SimTarget =>
                decide (maxPrio (a :: rest) ≤ t.priority)) a = true) := by
              simp only [decide_eq_true_eq, hm]
              omega
            rw [List.find?_cons_of_neg rest hpa, hm, hfind]
            simp [insertByPriority, hle]

/-- C5: default target selection picks the discovered target of highest
priority under the fixed ranking Pro-Max phone (4) > Pro phone (3) >
standard phone (2) > tablet (1) > everything else (0), ties broken by
discovery order (the selected target is the `find?`-first target of maximal
priority); in particular, with booted targets iPad Air, iPhone 15 Pro Max
and iPhone 15, the selected default — both the head of the discovery list
and the target `capture_simulator` captures from when no UDID is supplied —
is iPhone 15 Pro Max. -/
theorem C5_priority_selection :
    (devicePriority "iPad Air" = 1 ∧ devicePriority "iPhone 15 Pro Max" = 4 ∧
      devicePriority "iPhone 15" = 2 ∧ devicePriority "iPhone 15 Pro" = 3 ∧
      devicePriority "Apple TV 4K" = 0) ∧
    (∀ (data : List (String × List SimDevice)) (t0 : SimTarget),
      (sortByPriorityDesc (bootedTargets data)).head? = some t0 →
      (∀ t ∈ bootedTargets data, t.priority ≤ t0.priority) ∧
      (bootedTargets data).find? (fun t => decide (t0.priority ≤ t.priority))
        = some t0) ∧
    ((getBootedSimulatorsList c5Data).head?.map SimInfo.name
      = some "iPhone 15 Pro Max") ∧
    ((handleCaptureSimulator (testEnv (.ok c5Data) [.completed true]) "/h"
        c5CapArgs emptyStoreSt).1.message
      = some "Screenshot captured from iPhone 15 Pro Max") := by
  refine ⟨by decide, ?_, by decide, by decide⟩
  intro data t0 h
  rw [head_sortByPriorityDesc] at h
  have pm : maxPrio (bootedTargets data) ≤ t0.priority := by
    have hdec := List.find?_some h
    simpa using hdec
  have tm : t0 ∈ bootedTargets data := List.mem_of_find?_eq_some h
  have te : t0.priority = maxPrio (bootedTargets data) :=
    Nat.le_antisymm (mem_le_maxPrio tm) pm
  constructor
  · intro t ht
    rw [te]
    exact mem_le_maxPrio ht
  · rw [te]
    exact h

theorem C5_priority_selection_witness :
    (∀ t ∈ bootedTargets c5Data,
      t.priority ≤ (SimTarget.mk "iPhone 15 Pro Max" "U2" "iOS 17.0" 4).priority) ∧
    (bootedTargets c5Data).find?
        (fun t => decide ((SimTarget.mk "iPhone 15 Pro Max" "U2" "iOS 17.0" 4).priority
          ≤ t.priority))
      = some (SimTarget.mk "iPhone 15 Pro Max" "U2" "iOS 17.0" 4) :=
  C5_priority_selection.2.1 c5Data
    (SimTarget.mk "iPhone 15 Pro Max" "U2" "iOS 17.0" 4) (by decide)

theorem updatedPreview_id (args : UpdatePreviewArgs) (p : PreviewSet) :
    (updatedPreview args p).id = p.id := rfl

theorem idsOf_cons (p : PreviewSet) (l : List PreviewSet) :
    idsOf (p :: l) = p.id :: idsOf l := rfl

theorem map_eq_self_of {α : Type} (g : α → α) (l : List α)
    (h : ∀ x ∈ l, g x = x) : l.map g = l := by
  induction l with
  | nil => rfl
  | cons a rest ih =>
      rw [List.map_cons, h a (List.mem_cons_self a rest),
        ih (fun x hx => h x (List.mem_cons_of_mem a hx))]

theorem removeFirst_eq_filter (id : String) (l : List PreviewSet)
    (h : (idsOf l).Nodup) :
    removeFirstById id l = l.filter (fun p => !(p.id == id)) := by
  induction l with
  | nil => rfl
  | cons p rest ih =>
      rw [idsOf_cons] at h
      rcases List.nodup_cons.mp h with ⟨hnotin, hrest⟩
      by_cases hp : (p.id == id) = true
      · have hpe : p.id = id := eq_of_beq hp
        have hnone : ∀ q ∈ rest, (!(q.id == id)) = true := by
          intro q hq
          by_cases hq' : (q.id == id) = true
          · exfalso
            have hm : q.id ∈ idsOf rest := List.mem_map_of_mem PreviewSet.id hq
            rw [eq_of_beq hq', ← hpe] at hm
            exact hnotin hm
          · simp [hq']
        rw [List.filter_cons]
        simp only [hp, Bool.not_true, Bool.false_eq_true, if_false]
        rw [removeFirstById, if_pos hp, List.filter_eq_self.mpr hnone]
      · rw [List.filter_cons]
        simp only [hp, Bool.not_false, if_true]
        rw [removeFirstById, if_neg hp, ih hrest]

theorem updateFirst_eq_map (id : String) (f : PreviewSet → PreviewSet)
    (l : List PreviewSet) (h : (idsOf l).Nodup) :
    updateFirstById id f l
      = l.map (fun p => if p.id == id then f p else p) := by
  induction l with
  | nil => rfl
  | cons p rest ih =>
      rw [idsOf_cons] at h
      rcases List.nodup_cons.mp h with ⟨hnotin, hrest⟩
      by_cases hp : (p.id == id) = true
      · have hpe : p.id = id := eq_of_beq hp
        have hnone : ∀ q ∈ rest,
            (fun p => if p.id == id then f p else p) q = q := by
          intro q hq
          by_cases hq' : (q.id == id) = true
          · exfalso
            have hm : q.id ∈ idsOf rest := List.mem_map_of_mem PreviewSet.id hq
            rw [eq_of_beq hq', ← hpe] at hm
            exact hnotin hm
          · simp [hq']
        rw [List.map_cons, updateFirstById, if_pos hp, if_pos hp]
        congr 1
        exact (map_eq_self_of _ rest hnone).symm
      · rw [List.map_cons, updateFirstById, if_neg hp, if_neg hp, ih hrest]

theorem idsOf_map_update (args : UpdatePreviewArgs) (id : String)
    (l : List PreviewSet) :
    idsOf (l.map (fun p => if p.id == id then updatedPreview args p else p))
      = idsOf l := by
  unfold idsOf
  rw [List.map_map]
  apply List.map_congr_left
  intro p _
  show (if (p.id == id) = true then updatedPreview args p else p).id = p.id
  split
  · exact updatedPreview_id args p
  · rfl

theorem addIds_cons (op : StoreOp) (ops : List StoreOp) :
    addIds (op :: ops) = addIds [op] ++ addIds ops := by
  cases op <;> rfl

theorem specOp_nodup (fs : String → Bool) (s : StoreSettings) (op : StoreOp)
    (l : List PreviewSet) (rids : List String)
    (h : (idsOf l ++ (addIds [op] ++ rids)).Nodup) :
    (idsOf (specOp fs s l op) ++ rids).Nodup := by
  cases op with
  | add freshId now args =>
      by_cases hfs : fs args.screenshotPath = true
      · have hgoal : idsOf (specOp fs s l (.add freshId now args))
            = idsOf l ++ [freshId] := by
          simp [specOp, hfs, idsOf, addPreviewRecord]
        rw [hgoal, List.append_assoc]
        simpa using h
      · have hgoal : specOp fs s l (.add freshId now args) = l := by
          simp [specOp, hfs]
        rw [hgoal]
        have hsub : List.Sublist (idsOf l ++ rids)
            (idsOf l ++ (addIds [.add freshId now args] ++ rids)) := by
          apply List.Sublist.append_left
          show List.Sublist rids (freshId :: rids)
          exact List.sublist_cons_self freshId rids
        exact h.sublist hsub
  | remove id =>
      have hsub : List.Sublist (idsOf (specOp fs s l (.remove id)) ++ rids)
          (idsOf l ++ (addIds [.remove id] ++ rids)) := by
        apply List.Sublist.append
        · exact (List.filter_sublist l).map PreviewSet.id
        · exact List.Sublist.refl rids
      exact h.sublist hsub
  | update args =>
      by_cases hg : (l.any (fun p => p.id == args.id)
          && updateScreenshotOk fs args) = true
      · have hgoal : idsOf (specOp fs s l (.update args)) = idsOf l := by
          simp only [specOp, hg, if_true]
          exact idsOf_map_update args args.id l
        rw [hgoal]
        simpa using h
      · have hgoal : specOp fs s l (.update args) = l := by
          simp [specOp, hg]
        rw [hgoal]
        simpa using h

theorem applyOp_loaded (fs : String → Bool) (home : String) (op : StoreOp)
    (file : Option PreviewStore)
    (h : (idsOf (loadStore home file).previews).Nodup) :
    loadStore home (applyOp fs home file op)
      = { previews := specOp fs (loadStore home file).settings
            (loadStore home file).previews op
          settings := (loadStore home file).settings } := by
  cases op with
  | add freshId now args =>
      by_cases hfs : fs args.screenshotPath = true
      · have hlang : ({ loadStore home file with
            previews := (loadStore home file).previews
              ++ [addPreviewRecord freshId now args (loadStore home file).settings] }
              : PreviewStore).settings.language ≠ "" :=
          loadStore_language_ne home file
        simp only [applyOp, handleAddPreview, hfs, not_true_eq_false, if_false,
          specOp, if_true]
        rw [loadStore_saveStore home _ hlang]
      · simp only [applyOp, handleAddPreview, hfs, not_false_eq_true, if_true,
          specOp, if_false]
        rfl
  | remove id =>
      simp only [applyOp, handleRemovePreview]
      cases hf : (loadStore home file).previews.find? (fun p => p.id == id) with
      | none =>
          have hnone : ∀ q ∈ (loadStore home file).previews, ¬ ((q.id == id) = true) :=
            List.find?_eq_none.mp hf
          have hfilter : (loadStore home file).previews.filter (fun p => !(p.id == id))
              = (loadStore home file).previews :=
            List.filter_eq_self.mpr (fun q hq => by simp [hnone q hq])
          simp only [specOp, hfilter]
      | some q =>
          have hlang : ({ loadStore home file with
              previews := removeFirstById id (loadStore home file).previews }
                : PreviewStore).settings.language ≠ "" :=
            loadStore_language_ne home file
          simp only [specOp]
          rw [loadStore_saveStore home _ hlang, removeFirst_eq_filter id _ h]
  | update args =>
      simp only [applyOp, handleUpdatePreview]
      cases hf : (loadStore home file).previews.find? (fun p => p.id == args.id) with
      | none =>
          have hany : (loadStore home file).previews.any (fun p => p.id == args.id)
              = false := by
            rw [List.any_eq_false]
            exact List.find?_eq_none.mp hf
          simp only [specOp, hany, Bool.false_and, Bool.false_eq_true, if_false]
      | some q =>
          have hany : (loadStore home file).previews.any (fun p => p.id == args.id)
              = true := by
            rw [List.any_eq_true]
            have hpa := List.find?_some hf
            exact ⟨q, List.mem_of_find?_eq_some hf, hpa⟩
          by_cases hok : updateScreenshotOk fs args = true
          · have hlang : ({ loadStore home file with
                previews := updateFirstById args.id (updatedPreview args)
                  (loadStore home file).previews } : PreviewStore).settings.language ≠ "" :=
              loadStore_language_ne home file
            simp only [specOp, hany, hok, Bool.true_and, if_true, not_true_eq_false,
              if_false]
            rw [loadStore_saveStore home _ hlang,
              updateFirst_eq_map args.id (updatedPreview args) _ h]
          · have hok' : updateScreenshotOk fs args = false :=
              Bool.eq_false_iff.mpr hok
            simp only [specOp, hany, hok', Bool.and_false, Bool.false_eq_true,
              if_false, not_false_eq_true, if_true]

/-- C2: for every sequence of append/remove/update operations starting from
any store (well-formed per the data model: all record ids unique, appended
ids fresh), the final persisted previews sequence equals the
specification-level semantics — appended records in append order, the
removed ids deleted, updates applied to their record in place (no
reordering, positions and ids unchanged). -/
theorem C2_sequence_semantics (fs : String → Bool) (home : String)
    (ops : List StoreOp) (file : Option PreviewStore)
    (h : (idsOf (loadStore home file).previews ++ addIds ops).Nodup) :
    (loadStore home (applyOps fs home ops file)).previews
      = specOps fs (loadStore home file).settings ops
          (loadStore home file).previews := by
  induction ops generalizing file with
  | nil => rfl
  | cons op ops ih =>
      have hl : (idsOf (loadStore home file).previews).Nodup :=
        List.Nodup.of_append_left h
      have hstep := applyOp_loaded fs home op file hl
      have hinv : (idsOf (loadStore home (applyOp fs home file op)).previews
          ++ addIds ops).Nodup := by
        rw [hstep]
        exact specOp_nodup fs _ op _ (addIds ops)
          (by rw [← addIds_cons]; exact h)
      have hih := ih (applyOp fs home file op) hinv
      show (loadStore home (applyOps fs home ops (applyOp fs home file op))).previews = _
      rw [hih, hstep]
      rfl

theorem C2_sequence_semantics_witness :
    (idsOf (loadStore "/h"
        (some { previews := [c9Preview], settings := plainSettings })).previews
      ++ addIds
        [StoreOp.add "p2" "t2"
          { screenshotPath := "/s/b.png", title := "B", subtitle := "C" },
         StoreOp.remove "p1",
         StoreOp.update { id := "p2", title := some "B2" }]).Nodup ∧
    (loadStore "/h" (applyOps (fun _ => true) "/h"
        [StoreOp.add "p2" "t2"
          { screenshotPath := "/s/b.png", title := "B", subtitle := "C" },
         StoreOp.remove "p1",
         StoreOp.update { id := "p2", title := some "B2" }]
        (some { previews := [c9Preview], settings := plainSettings }))).previews
      = specOps (fun _ => true)
          (loadStore "/h"
            (some { previews := [c9Preview], settings := plainSettings })).settings
          [StoreOp.add "p2" "t2"
            { screenshotPath := "/s/b.png", title := "B", subtitle := "C" },
           StoreOp.remove "p1",
           StoreOp.update { id := "p2", title := some "B2" }]
          (loadStore "/h"
            (some { previews := [c9Preview], settings := plainSettings })).previews :=
  ⟨by decide, C2_sequence_semantics (fun _ => true) "/h" _ _ (by decide)⟩
